import Mathlib

/-!
Shallow embedding of the azure-collector batching pipeline
(`src/azure/client.py`, `src/core/batch_manager.py`,
`src/core/message_processor.py`, `src/storage/queue.py`).

External effects (HTTP calls, queue operations, the Snowflake sink) are
modelled by oracles passed as parameters, and the queue / sink side
effects a call performs are recorded as an explicit event trace.
-/

namespace AzureCollector

/-- A JSON object payload, as produced by `response.json()` and stored in
`CollectorResponse.data : List[Dict[str, Any]]`.  Values are abstracted to
strings; Python truthiness of a dict is non-emptiness. -/
abbrev Payload := List (String × String)

/-- Python truthiness of a `Payload` dict (`if r:` keeps non-empty dicts). -/
def truthy (p : Payload) : Bool := !p.isEmpty

/-- `APIRequest` of `src/azure/message_interface.py` (the fields the
executor loop reads; parameter dictionaries are abstracted into
`resource_path`, which only serves to identify the request). -/
structure APIRequest where
  service : String
  method : String
  resource_path : String
  deriving Repr, DecidableEq

/-- `CollectorMessage` of `src/azure/message_interface.py`: one job. -/
structure CollectorMessage where
  message_id : String
  correlation_id : Option String
  api_requests : List APIRequest
  deriving Repr, DecidableEq

/-- `CollectorResponse` of `src/azure/message_interface.py`: the result
record for one job.  `timestamp` is an abstract clock value. -/
structure CollectorResponse where
  message_id : String
  correlation_id : Option String
  status : String
  data : List Payload
  errors : List String
  timestamp : Nat
  deriving Repr, DecidableEq

/-- The per-request loop body of `AzureClient.execute_api_calls`
(`src/azure/client.py` lines 139-176): for each request, on success append
the parsed JSON to `results` and `None` to `errors`; on any exception
append `{}` to `results` and `str(e)` to `errors`.  The outcome of the
HTTP call (`requests.request` + `raise_for_status` + `.json()`) is the
oracle `outcome`. -/
def runRequests (outcome : APIRequest → Except String Payload) :
    List APIRequest → List Payload × List (Option String)
  | [] => ([], [])
  | r :: rest =>
    let tail := runRequests outcome rest
    match outcome r with
    | .ok d => (d :: tail.1, none :: tail.2)
    | .error e => ([] :: tail.1, some e :: tail.2)

/-- `AzureClient.execute_api_calls` (`src/azure/client.py` lines 129-196).
`auth` is the outcome of `self._get_headers()`: if it raises, the outer
`except` returns the `status="error"` response with a single error.
Otherwise the request loop runs to completion (each per-request exception
is caught inside the loop) and the response is assembled with
`status = "success" if all(e is None for e in errors) else "partial_failure"`,
`data = [r for r in results if r]` (only truthy results) and
`errors = [e for e in errors if e]` (only truthy error strings). -/
def execute_api_calls (auth : Except String Unit)
    (outcome : APIRequest → Except String Payload)
    (now : Nat) (message : CollectorMessage) : CollectorResponse :=
  match auth with
  | .error e =>
      { message_id := message.message_id
        correlation_id := message.correlation_id
        status := "error"
        data := []
        errors := [e]
        timestamp := now }
  | .ok _ =>
      let run := runRequests outcome message.api_requests
      { message_id := message.message_id
        correlation_id := message.correlation_id
        status := if run.2.all (·.isNone) then "success" else "partial_failure"
        data := run.1.filter truthy
        errors := (run.2.filterMap id).filter (fun e => !e.isEmpty)
        timestamp := now }

/-- One raw queue message (`azure.storage.queue.QueueMessage`): the lease
handle the pipeline carries around.  `content` is its payload. -/
structure QueueMsg where
  id : String
  content : String
  deriving Repr, DecidableEq

/-- One row of the list `snowflake_data` built by `BatchManager.flush`
(`src/core/batch_manager.py` lines 71-82). -/
structure SnowflakeRow where
  message_id : String
  correlation_id : Option String
  status : String
  data : Payload
  errors : Option String
  timestamp : Nat
  request_index : Nat
  deriving Repr, DecidableEq

/-- The inner loop `for i, data in enumerate(result.data)` of
`BatchManager.flush` (`src/core/batch_manager.py` lines 72-82), which
builds one row per element of `result.data`.  The Python expression
`result.errors[i] if result.errors and i < len(result.errors) else None`
is exactly `result.errors.get? i`. -/
def rowsOfResult (result : CollectorResponse) : List SnowflakeRow :=
  (List.range result.data.length).map fun i =>
    { message_id := result.message_id
      correlation_id := result.correlation_id
      status := result.status
      data := result.data.getD i []
      errors := result.errors.get? i
      timestamp := result.timestamp
      request_index := i }

/-- An externally visible side effect of the pipeline: a sink batch write,
a queue message deletion, a queue visibility (lease) update, or the
invocation of the API executor. -/
inductive Event where
  | sinkWrite (rows : List SnowflakeRow)
  | deleteMsg (id : String)
  | updateVisibility (id : String) (timeout : Nat)
  | execCall
  deriving Repr, DecidableEq

/-- The mutable fields of `BatchManager` (`src/core/batch_manager.py`
lines 22-27): the accumulated batch, the flush-timer baseline, and the
`_stop_event` flag set by `close`. -/
structure BatchState where
  current_batch : List (CollectorResponse × QueueMsg)
  last_flush_time : Nat
  stop_set : Bool
  deriving Repr, DecidableEq

/-- Outcome oracles for the Batch Manager's external calls: whether the
Snowflake `write_batch` succeeds on a given row list, and whether
`delete_message` succeeds for a given message id. -/
structure FlushEnv where
  writeOk : List SnowflakeRow → Bool
  deleteOk : String → Bool

/-- Result of one Batch Manager call: the trace of external calls it
issued, the field values of the object when the call ends, and the
exception it raised, if any. -/
structure StepResult where
  trace : List Event
  state : BatchState
  raised : Option String
  deriving Repr, DecidableEq

/-- The deletion loop of `BatchManager.flush` (`src/core/batch_manager.py`
lines 90-91): delete each queued message in batch order; a failing
`delete_message` raises, ending the loop there.  Every attempted delete
call is recorded in the trace. -/
def deleteLoop (env : FlushEnv) : List QueueMsg → List Event × Option String
  | [] => ([], none)
  | m :: rest =>
    if env.deleteOk m.id then
      let tail := deleteLoop env rest
      (Event.deleteMsg m.id :: tail.1, tail.2)
    else ([Event.deleteMsg m.id], some ("delete_message failed: " ++ m.id))

/-- The rows `flush` writes for a batch state: `results, _ = zip(*batch)`
followed by the per-result expansion. -/
def batchRows (st : BatchState) : List SnowflakeRow :=
  (st.current_batch.map Prod.fst).flatMap rowsOfResult

/-- `BatchManager.flush` (`src/core/batch_manager.py` lines 59-98):
no-op on an empty batch; otherwise build `snowflake_data`, write it to the
sink, then delete every queue message of the batch, then clear the batch
and reset `last_flush_time`.  An exception from the sink write or from a
delete is logged and re-raised; the field assignments on lines 93-94 are
only reached when the write and all deletes have succeeded, so on any
raise the object state is exactly the pre-call state. -/
def flush (env : FlushEnv) (now : Nat) (st : BatchState) : StepResult :=
  if st.current_batch.isEmpty then ⟨[], st, none⟩
  else
    let queue_messages := st.current_batch.map Prod.snd
    let snowflake_data := batchRows st
    if env.writeOk snowflake_data then
      let del := deleteLoop env queue_messages
      match del.2 with
      | some e => ⟨Event.sinkWrite snowflake_data :: del.1, st, some e⟩
      | none =>
          ⟨Event.sinkWrite snowflake_data :: del.1,
           { current_batch := [], last_flush_time := now, stop_set := st.stop_set },
           none⟩
    else
      ⟨[Event.sinkWrite snowflake_data], st, some "write_batch failed"⟩

/-- `BatchManager.add_to_batch` (`src/core/batch_manager.py` lines 29-49):
return immediately on an empty argument; otherwise extend the batch and,
if the post-append size has reached `batch_size`, flush synchronously
before returning (an exception from that flush propagates). -/
def add_to_batch (env : FlushEnv) (now : Nat) (batch_size : Nat)
    (st : BatchState) (results : List (CollectorResponse × QueueMsg)) : StepResult :=
  if results.isEmpty then ⟨[], st, none⟩
  else
    let st1 := { st with current_batch := st.current_batch ++ results }
    if batch_size ≤ st1.current_batch.length then flush env now st1
    else ⟨[], st1, none⟩

/-- `BatchManager.close` (`src/core/batch_manager.py` lines 110-117):
set `_stop_event`, flush once, close the sink; any exception is caught
and logged, so `close` itself never raises. -/
def close (env : FlushEnv) (now : Nat) (st : BatchState) : StepResult :=
  let r := flush env now { st with stop_set := true }
  ⟨r.trace, r.state, none⟩

/-- A sequence of `add_to_batch` calls, each with its clock value and its
argument list, starting from a given state; `none` when some call in the
sequence raised (did not return normally). -/
def runAdds (env : FlushEnv) (batch_size : Nat) :
    List (Nat × List (CollectorResponse × QueueMsg)) → BatchState → Option BatchState
  | [], st => some st
  | (now, rs) :: calls, st =>
    let r := add_to_batch env now batch_size st rs
    match r.raised with
    | some _ => none
    | none => runAdds env batch_size calls r.state

/-- `QueueManager.receive_messages` (`src/storage/queue.py` lines 78-116)
over a delivered message list: each message is parsed by
`QueueManager._parse_message` (modelled by the oracle `parse`);
a message whose payload fails to parse is deleted on the spot and
excluded from the result, a parsed one is paired with its raw message and
appended. -/
def receive_messages (parse : QueueMsg → Option CollectorMessage) :
    List QueueMsg → List Event × List (CollectorMessage × QueueMsg)
  | [] => ([], [])
  | m :: rest =>
    let tail := receive_messages parse rest
    match parse m with
    | some pm => (tail.1, (pm, m) :: tail.2)
    | none => (Event.deleteMsg m.id :: tail.1, tail.2)

/-- Pydantic v2 construction of `CollectorResponse` by keyword arguments
(`src/azure/message_interface.py` lines 52-59): an unknown keyword such as
`results` is ignored (default `extra` policy), and omitting the required
field `data` raises a `ValidationError`.  `data` is the value passed for
that keyword, or `none` when the keyword is absent from the call. -/
def pydantic_mkCollectorResponse (message_id : String)
    (correlation_id : Option String) (status : String)
    (data : Option (List Payload)) (errors : List String)
    (timestamp : Nat) : Except String CollectorResponse :=
  match data with
  | none => .error "ValidationError: Field required: data"
  | some d =>
      .ok { message_id := message_id, correlation_id := correlation_id,
            status := status, data := d, errors := errors,
            timestamp := timestamp }

/-- `MessageProcessor.process_message` (`src/core/message_processor.py`
lines 26-81).  `visOk` is the outcome of `update_message_visibility`;
`executor` is the outcome of `azure_client.execute_api_calls` (raise or
return).  The `except` handler on lines 70-81 calls
`CollectorResponse(message_id=..., correlation_id=..., status="error",
results=[], errors=[str(e)], timestamp=...)`: it passes `results` and no
`data`, so the construction itself raises, and that raise propagates out
of the handler.  On the `status == "success"` branch the log call reads
`result.results`, a field `CollectorResponse` does not have, raising an
`AttributeError` that reaches the same handler. -/
def process_message (visOk : Bool) (executor : Except String CollectorResponse)
    (now : Nat) (message : CollectorMessage) (queue_message : QueueMsg) :
    List Event × Except String CollectorResponse :=
  let handler := fun (e : String) =>
    pydantic_mkCollectorResponse message.message_id message.correlation_id
      "error" none [e] now
  if visOk then
    match executor with
    | .error e =>
        ([Event.updateVisibility queue_message.id 300, Event.execCall], handler e)
    | .ok result =>
        if result.status = "success" then
          ([Event.updateVisibility queue_message.id 300, Event.execCall],
           handler "AttributeError: no attribute results")
        else
          ([Event.updateVisibility queue_message.id 300, Event.execCall], .ok result)
  else
    ([Event.updateVisibility queue_message.id 300],
     handler "update_message_visibility failed")

/-! Concrete inputs used for counterexamples and witnesses. -/

/-- A first concrete API request. -/
def exReq1 : APIRequest := ⟨"compute", "GET", "/a"⟩

/-- A second concrete API request. -/
def exReq2 : APIRequest := ⟨"network", "GET", "/b"⟩

/-- A concrete job with two operations. -/
def exMsg : CollectorMessage := ⟨"m1", some "c1", [exReq1, exReq2]⟩

/-- Outcome oracle where the first request succeeds and the second raises. -/
def exOutcomeMixed : APIRequest → Except String Payload := fun r =>
  if r.resource_path = "/a" then .ok [("k", "v")] else .error "boom"

/-- Outcome oracle where every request raises. -/
def exOutcomeAllFail : APIRequest → Except String Payload := fun _ =>
  .error "boom"

/-- A concrete result record (as produced for `exMsg` under
`exOutcomeMixed`). -/
def exResp : CollectorResponse :=
  ⟨"m1", some "c1", "partial_failure", [[("k", "v")]], ["boom"], 0⟩

/-- A concrete queue message. -/
def exQ : QueueMsg := ⟨"q1", "raw"⟩

/-- Environment whose sink write always fails and deletes always succeed. -/
def envNoWrite : FlushEnv := ⟨fun _ => false, fun _ => true⟩

/-- Environment whose sink write and deletes always succeed. -/
def envAllOk : FlushEnv := ⟨fun _ => true, fun _ => true⟩

/-- A batch state holding one entry. -/
def stOne : BatchState := ⟨[(exResp, exQ)], 0, false⟩

/-! Theorems settling the claims. -/

/-- C1: if the sink batch write raises during `flush`, the exception
propagates to the caller, the in-memory batch and the last-flush-time
baseline are left exactly as they were, and the only external call of the
flush is the failed sink write — no queue deletion is performed for any
entry of the batch. -/
theorem C1_sink_failure_leaves_batch (env : FlushEnv) (now : Nat)
    (st : BatchState) (hne : st.current_batch ≠ [])
    (hw : env.writeOk (batchRows st) = false) :
    (flush env now st).raised.isSome = true ∧
    (flush env now st).state = st ∧
    (flush env now st).trace = [Event.sinkWrite (batchRows st)] := by
  have hne2 : st.current_batch.isEmpty = false := by
    simpa [List.isEmpty_iff] using hne
  simp [flush, hne2, hw]

/-- Witness for C1 at a concrete one-entry batch with a failing sink. -/
theorem C1_sink_failure_leaves_batch_witness :
    (flush envNoWrite 5 stOne).raised.isSome = true ∧
    (flush envNoWrite 5 stOne).state = stOne ∧
    (flush envNoWrite 5 stOne).trace = [Event.sinkWrite (batchRows stOne)] :=
  C1_sink_failure_leaves_batch envNoWrite 5 stOne (by decide) (by decide)

/-- C2: for a flush of a non-empty batch, the sink write for the whole
batch is the first external call of the flush, and any queue deletion the
flush issues occurs in the part of the trace strictly after it, and only
when the sink write succeeded. -/
theorem C2_delete_only_after_write (env : FlushEnv) (now : Nat)
    (st : BatchState) (hne : st.current_batch ≠ []) :
    ∃ tail,
      (flush env now st).trace = Event.sinkWrite (batchRows st) :: tail ∧
      (∀ i, Event.deleteMsg i ∈ tail → env.writeOk (batchRows st) = true) := by
  have hne2 : st.current_batch.isEmpty = false := by
    simpa [List.isEmpty_iff] using hne
  by_cases hw : env.writeOk (batchRows st) = true
  · refine ⟨(deleteLoop env (st.current_batch.map Prod.snd)).1, ?_, ?_⟩
    · simp only [flush, hne2, Bool.false_eq_true, if_false, hw, if_true]
      cases hdel : (deleteLoop env (st.current_batch.map Prod.snd)).2 <;>
        simp [hdel]
    · intro i _
      exact hw
  · refine ⟨[], ?_, ?_⟩
    · simp [flush, hne2, hw]
    · intro i hi
      simp at hi

/-- Witness for C2 at a concrete one-entry batch with a succeeding sink. -/
theorem C2_delete_only_after_write_witness :
    ∃ tail,
      (flush envAllOk 5 stOne).trace = Event.sinkWrite (batchRows stOne) :: tail ∧
      (∀ i, Event.deleteMsg i ∈ tail → envAllOk.writeOk (batchRows stOne) = true) :=
  C2_delete_only_after_write envAllOk 5 stOne (by decide)

/-- C5: the code at the failing input.  When the executor raises (here a
systemic "authentication failure"), `process_message` does not return an
error record: its `except` handler constructs `CollectorResponse` with a
`results` keyword instead of the required `data` field, so the handler
itself raises a pydantic `ValidationError`, which propagates to the
caller. -/
theorem C5_error_handler_raises :
    (process_message true (Except.error "authentication failure") 0 exMsg exQ).2 =
      Except.error "ValidationError: Field required: data" := by
  rfl

/-- C8: for every job it processes, the Message Processor's queue trace is
exactly one visibility renewal of the job's queue message to 300 time
units, placed before the executor invocation when that invocation
happens; in particular there is no deletion and no second renewal. -/
theorem C8_single_lease_renewal (visOk : Bool)
    (executor : Except String CollectorResponse) (now : Nat)
    (message : CollectorMessage) (queue_message : QueueMsg) :
    (process_message visOk executor now message queue_message).1 =
        [Event.updateVisibility queue_message.id 300] ∨
    (process_message visOk executor now message queue_message).1 =
        [Event.updateVisibility queue_message.id 300, Event.execCall] := by
  cases visOk with
  | false => exact Or.inl rfl
  | true =>
    cases executor with
    | error e => exact Or.inr rfl
    | ok result =>
      right
      by_cases h : result.status = "success" <;> simp [process_message, h]

/-- C10: in every outcome branch (systemic failure, all operations
succeed, or some fail), the response of `execute_api_calls` carries the
input message's `message_id` and `correlation_id`. -/
theorem C10_ids_preserved (auth : Except String Unit)
    (outcome : APIRequest → Except String Payload) (now : Nat)
    (message : CollectorMessage) :
    (execute_api_calls auth outcome now message).message_id = message.message_id ∧
    (execute_api_calls auth outcome now message).correlation_id = message.correlation_id := by
  cases auth <;> simp [execute_api_calls]

/-- The error column of `runRequests` is all-`None` exactly when every
request's outcome was a success. -/
theorem runRequests_all_none (outcome : APIRequest → Except String Payload)
    (reqs : List APIRequest) :
    ((runRequests outcome reqs).2.all (·.isNone) = true) ↔
      ∀ r ∈ reqs, ∃ p, outcome r = Except.ok p := by
  induction reqs with
  | nil => simp [runRequests]
  | cons r rest ih =>
    cases h : outcome r with
    | ok d => simp [runRequests, h, ih]
    | error e => simp [runRequests, h, ih]

/-- C3 counterexample: a job with two operations in which *every*
operation fails (each outcome is an exception, so no operation succeeded)
still yields `status = "partial_failure"`, not some non-partial status —
the code derives `partial_failure` from "at least one error", not from
"mixed". -/
theorem C3_counterexample :
    (execute_api_calls (Except.ok ()) exOutcomeAllFail 0 exMsg).status =
        "partial_failure" ∧
    ∀ r ∈ exMsg.api_requests, ∀ p, exOutcomeAllFail r ≠ Except.ok p := by
  constructor
  · rfl
  · intro r _ p
    simp [exOutcomeAllFail]

/-- C3 (amended): when the executor runs its operations (headers obtained),
`status = "success"` iff every operation outcome has no error and
`status = "partial_failure"` iff at least one operation failed — even if
every operation failed; `status = "error"` iff the job could not be
attempted at all (the header call raised, so the operations never ran). -/
theorem C3_status_derivation (auth : Except String Unit)
    (outcome : APIRequest → Except String Payload) (now : Nat)
    (message : CollectorMessage) :
    ((execute_api_calls auth outcome now message).status = "success" ↔
      auth = Except.ok () ∧
        ∀ r ∈ message.api_requests, ∃ p, outcome r = Except.ok p) ∧
    ((execute_api_calls auth outcome now message).status = "partial_failure" ↔
      auth = Except.ok () ∧
        ∃ r ∈ message.api_requests, ∀ p, outcome r ≠ Except.ok p) ∧
    ((execute_api_calls auth outcome now message).status = "error" ↔
      ∀ u, auth ≠ Except.ok u) := by
  cases auth with
  | error e =>
    refine ⟨?_, ?_, ?_⟩ <;> simp [execute_api_calls]
  | ok u =>
    cases u
    by_cases hall : (runRequests outcome message.api_requests).2.all (·.isNone) = true
    · have hsucc := (runRequests_all_none outcome message.api_requests).mp hall
      refine ⟨?_, ?_, ?_⟩
      · constructor
        · intro _
          exact ⟨rfl, hsucc⟩
        · intro _
          simp [execute_api_calls, hall]
      · constructor
        · intro hst
          simp [execute_api_calls, hall] at hst
        · rintro ⟨-, r, hr, hfail⟩
          obtain ⟨p, hp⟩ := hsucc r hr
          exact absurd hp (hfail p)
      · simp [execute_api_calls, hall]
    · have hfail : ∃ r ∈ message.api_requests, ∀ p, outcome r ≠ Except.ok p := by
        by_contra hcon
        push_neg at hcon
        exact hall ((runRequests_all_none outcome message.api_requests).mpr
          (fun r hr => by
            obtain ⟨p, hp⟩ := hcon r hr
            exact ⟨p, hp⟩))
      refine ⟨?_, ?_, ?_⟩
      · constructor
        · intro hst
          simp [execute_api_calls, hall] at hst
        · rintro ⟨-, hok⟩
          exact absurd ((runRequests_all_none outcome message.api_requests).mpr hok) hall
      · simp [execute_api_calls, hall, hfail]
      · simp [execute_api_calls, hall]

/-- C4 counterexample: for the job `exMsg` with 2 operations of which one
fails, the flush expansion produces a single sink row — not one row per
operation outcome — and that single row carries *both* the successful
payload and the error string, at index 0. -/
theorem C4_counterexample :
    rowsOfResult (execute_api_calls (Except.ok ()) exOutcomeMixed 0 exMsg) =
      [{ message_id := "m1", correlation_id := some "c1",
         status := "partial_failure", data := [("k", "v")],
         errors := some "boom", timestamp := 0, request_index := 0 }] ∧
    exMsg.api_requests.length = 2 := by
  constructor
  · rfl
  · rfl

/-- C4 (amended): the flush expansion produces exactly one sink row per
element of the record's `data` sequence (which holds only the truthy
success payloads, not one entry per operation); row `i` carries the
record's `message_id`, `correlation_id`, `status`, `data[i]`, the `i`-th
entry of the filtered `errors` list when it exists (positional, not the
failing operation's own index), the record's timestamp, and the index `i`
within the `data` sequence. -/
theorem C4_flush_row_expansion (result : CollectorResponse) :
    (rowsOfResult result).length = result.data.length ∧
    ∀ i (h : i < (rowsOfResult result).length),
      (rowsOfResult result).get ⟨i, h⟩ =
        { message_id := result.message_id
          correlation_id := result.correlation_id
          status := result.status
          data := result.data.getD i []
          errors := result.errors.get? i
          timestamp := result.timestamp
          request_index := i } := by
  constructor
  · simp [rowsOfResult]
  · intro i h
    simp [rowsOfResult]

/-- Witness for C4's amended theorem: the row list of the concrete record
`exResp` matches the amended description at index 0. -/
theorem C4_flush_row_expansion_witness :
    (rowsOfResult exResp).length = exResp.data.length ∧
    (rowsOfResult exResp).get ⟨0, by decide⟩ =
      { message_id := exResp.message_id
        correlation_id := exResp.correlation_id
        status := exResp.status
        data := exResp.data.getD 0 []
        errors := exResp.errors.get? 0
        timestamp := exResp.timestamp
        request_index := 0 } :=
  ⟨(C4_flush_row_expansion exResp).1,
   (C4_flush_row_expansion exResp).2 0 (by decide)⟩

/-- A flush that returns normally on a non-empty batch has cleared the
batch (the field assignment on line 93 of `batch_manager.py` is the only
normal exit of the non-empty path). -/
theorem flush_success_clears (env : FlushEnv) (now : Nat) (st : BatchState)
    (hne : st.current_batch ≠ [])
    (hok : (flush env now st).raised = none) :
    (flush env now st).state.current_batch = [] := by
  have hne2 : st.current_batch.isEmpty = false := by
    simpa [List.isEmpty_iff] using hne
  by_cases hw : env.writeOk (batchRows st) = true
  · simp only [flush, hne2, Bool.false_eq_true, if_false, hw, if_true] at hok ⊢
    cases hdel : (deleteLoop env (st.current_batch.map Prod.snd)).2 with
    | none => simp [hdel]
    | some e => simp [hdel] at hok
  · simp [flush, hne2, hw] at hok

/-- One `add_to_batch` call that returns normally preserves the batch
bound `length ≤ batch_size`. -/
theorem add_to_batch_bound (env : FlushEnv) (now : Nat) (batch_size : Nat)
    (st : BatchState) (results : List (CollectorResponse × QueueMsg))
    (hpre : st.current_batch.length ≤ batch_size)
    (hok : (add_to_batch env now batch_size st results).raised = none) :
    (add_to_batch env now batch_size st results).state.current_batch.length ≤
      batch_size := by
  by_cases hr : results.isEmpty
  · simpa [add_to_batch, hr] using hpre
  · by_cases hful :
        batch_size ≤ (st.current_batch ++ results).length
    · have hne : ({ st with current_batch := st.current_batch ++ results } :
          BatchState).current_batch ≠ [] := by
        simp only []
        intro hcon
        rw [List.append_eq_nil] at hcon
        exact absurd (List.isEmpty_iff.mpr hcon.2) (by simpa using hr)
      have hclr := flush_success_clears env now
        { st with current_batch := st.current_batch ++ results } hne
      simp only [add_to_batch, hr, Bool.false_eq_true, if_false, hful,
        if_true] at hok ⊢
      rw [hclr hok]
      simp
    · have hlt : (st.current_batch ++ results).length < batch_size :=
        Nat.lt_of_not_le hful
      simp only [add_to_batch, hr, Bool.false_eq_true, if_false, hful,
        if_false]
      exact Nat.le_of_lt hlt

/-- C6: for every sequence of `add_to_batch` calls each of which returns
normally, starting from any state within the bound (in particular the
initial empty batch), the in-memory batch size is at most `batch_size`
after every call returns — `add_to_batch` appends the entries and, when
the post-append size reaches `batch_size`, flushes synchronously before
returning. -/
theorem C6_batch_bound (env : FlushEnv) (batch_size : Nat)
    (calls : List (Nat × List (CollectorResponse × QueueMsg)))
    (st0 final : BatchState)
    (h0 : st0.current_batch.length ≤ batch_size)
    (h : runAdds env batch_size calls st0 = some final) :
    final.current_batch.length ≤ batch_size := by
  induction calls generalizing st0 with
  | nil =>
    simp only [runAdds, Option.some.injEq] at h
    exact h ▸ h0
  | cons c rest ih =>
    obtain ⟨now, rs⟩ := c
    simp only [runAdds] at h
    cases hr : (add_to_batch env now batch_size st0 rs).raised with
    | some e => rw [hr] at h; exact absurd h (by simp)
    | none =>
      rw [hr] at h
      exact ih (add_to_batch env now batch_size st0 rs).state
        (add_to_batch_bound env now batch_size st0 rs h0 hr) h

/-- Witness for C6: one concrete `add` of one entry with `batch_size = 3`
leaves a batch of length 1 ≤ 3. -/
theorem C6_batch_bound_witness :
    (⟨[(exResp, exQ)], 0, false⟩ : BatchState).current_batch.length ≤ 3 :=
  C6_batch_bound envAllOk 3 [(1, [(exResp, exQ)])] ⟨[], 0, false⟩
    ⟨[(exResp, exQ)], 0, false⟩ (by decide) (by decide)

/-- C7: `receive_messages` returns exactly the successfully parsed
messages, in order, each paired with its raw queue message; every message
whose payload fails to parse is deleted during the receive step, and the
only queue effects of the receive step are such deletions of unparseable
messages — no result is produced for them. -/
theorem C7_poison_deleted (parse : QueueMsg → Option CollectorMessage)
    (msgs : List QueueMsg) :
    (receive_messages parse msgs).2 =
      msgs.filterMap (fun m => (parse m).map (fun pm => (pm, m))) ∧
    (∀ m ∈ msgs, parse m = none →
      Event.deleteMsg m.id ∈ (receive_messages parse msgs).1) ∧
    (∀ e ∈ (receive_messages parse msgs).1,
      ∃ m ∈ msgs, parse m = none ∧ e = Event.deleteMsg m.id) := by
  induction msgs with
  | nil => simp [receive_messages]
  | cons m rest ih =>
    obtain ⟨ih1, ih2, ih3⟩ := ih
    cases h : parse m with
    | some pm =>
      refine ⟨?_, ?_, ?_⟩
      · simp [receive_messages, h, ih1]
      · intro x hx hpx
        rcases List.mem_cons.mp hx with heq | hmem
        · rw [heq] at hpx
          rw [hpx] at h
          cases h
        · simpa [receive_messages, h] using ih2 x hmem hpx
      · intro e he
        simp only [receive_messages, h] at he
        obtain ⟨x, hx, hpx, hex⟩ := ih3 e he
        exact ⟨x, List.mem_cons_of_mem m hx, hpx, hex⟩
    | none =>
      refine ⟨?_, ?_, ?_⟩
      · simp [receive_messages, h, ih1]
      · intro x hx hpx
        rcases List.mem_cons.mp hx with heq | hmem
        · simp [receive_messages, h, heq]
        · simp only [receive_messages, h]
          exact List.mem_cons_of_mem _ (ih2 x hmem hpx)
      · intro e he
        simp only [receive_messages, h] at he
        rcases List.mem_cons.mp he with heq | hmem
        · exact ⟨m, List.mem_cons_self m rest, h, heq⟩
        · obtain ⟨x, hx, hpx, hex⟩ := ih3 e hmem
          exact ⟨x, List.mem_cons_of_mem m hx, hpx, hex⟩

/-- `flush` is insensitive to the `_stop_event` flag: it acts on a state
with the flag set exactly as on the same state without it, carrying the
flag through. -/
theorem flush_stop_set (env : FlushEnv) (now : Nat) (st : BatchState) :
    flush env now { st with stop_set := true } =
      { trace := (flush env now st).trace
        state := { (flush env now st).state with stop_set := true }
        raised := (flush env now st).raised } := by
  by_cases he : st.current_batch.isEmpty
  · simp [flush, he]
  · by_cases hw : env.writeOk (batchRows st) = true
    · have hrows : batchRows { st with stop_set := true } = batchRows st := rfl
      simp only [flush, he, Bool.false_eq_true, if_false, hrows, hw, if_true]
      cases hdel : (deleteLoop env (st.current_batch.map Prod.snd)).2 <;>
        simp [hdel]
    · have hrows : batchRows { st with stop_set := true } = batchRows st := rfl
      simp [flush, he, hrows, hw]

/-- C9 counterexample: starting from a fresh manager, call `close`, then
`add_to_batch` with one entry.  The add returns normally (`raised = none`,
nothing is reported) and the entry sits in the batch — it was silently
appended, not rejected. -/
theorem C9_counterexample :
    (close envAllOk 1 ⟨[], 0, false⟩).state.stop_set = true ∧
    add_to_batch envAllOk 2 32 (close envAllOk 1 ⟨[], 0, false⟩).state
        [(exResp, exQ)] =
      { trace := [], state := ⟨[(exResp, exQ)], 0, true⟩, raised := none } := by
  constructor
  · rfl
  · rfl

/-- C9 (amended): after `close` has set the stop flag, a subsequent
`add_to_batch` call is *not* reported as an error: it behaves exactly as
it would have before `close` — silently appending the entries (and
possibly flushing) — because `add_to_batch` never consults the flag. -/
theorem C9_add_after_close_silent (env : FlushEnv) (now : Nat)
    (batch_size : Nat) (st : BatchState)
    (results : List (CollectorResponse × QueueMsg)) :
    add_to_batch env now batch_size { st with stop_set := true } results =
      { trace := (add_to_batch env now batch_size st results).trace
        state := { (add_to_batch env now batch_size st results).state with
                     stop_set := true }
        raised := (add_to_batch env now batch_size st results).raised } := by
  by_cases hr : results.isEmpty
  · simp [add_to_batch, hr]
  · by_cases hful : batch_size ≤ (st.current_batch ++ results).length
    · simp only [add_to_batch, hr, Bool.false_eq_true, if_false, hful, if_true]
      exact flush_stop_set env now
        { st with current_batch := st.current_batch ++ results }
    · have hful2 : ¬batch_size ≤ st.current_batch.length + results.length := by
        simpa [List.length_append] using hful
      simp [add_to_batch, hr, hful2]

end AzureCollector
